import Mathlib

/-!
Verification of the DecentraTrustAI core: the trust-score engine
(`ai-engine/score_service.py`), the tier classifier and publication endpoint
(`backend/main.py`), and the oracle ledger client
(`backend/oracle_listener.py`).

The Python code computes with floats; following the specification's
"real-valued intermediate computation" semantics, the embedding uses `ℝ`
for the real-valued fields and intermediate scores, `ℤ` for the integer
fields, and models Python's built-in `round` (banker's rounding: round half
to even) explicitly.
-/

/-- Python's built-in `round` on a real number: nearest integer, with ties
(fractional part exactly 1/2) resolved to the even neighbour. -/
noncomputable def pyRound (x : ℝ) : ℤ :=
  if Int.fract x = 1 / 2 then (if ⌊x⌋ % 2 = 0 then ⌊x⌋ else ⌊x⌋ + 1)
  else round x

/-- Python's `round(x, 2)`: round half to even at two decimal places. -/
noncomputable def round2 (x : ℝ) : ℝ := (pyRound (x * 100) : ℝ) / 100

namespace ScoreService

/-- The `UserMetrics` dataclass of `score_service.py`. -/
structure UserMetrics where
  transaction_count : ℤ
  avg_transaction_value : ℝ
  account_age_days : ℤ
  dispute_count : ℤ
  successful_transactions : ℤ
  frequency_per_day : ℝ
  variance_score : Option ℝ := none

/-- Account age bonus: `min(metrics.account_age_days / 365 * 10, 15)`. -/
noncomputable def age_bonus (account_age_days : ℤ) : ℝ :=
  min ((account_age_days : ℝ) / 365 * 10) 15

/-- Success rate bonus, added only when `transaction_count > 0`:
`(successful_transactions / transaction_count) * 20`. -/
noncomputable def success_bonus (transaction_count successful_transactions : ℤ) : ℝ :=
  if 0 < transaction_count then
    (successful_transactions : ℝ) / (transaction_count : ℝ) * 20
  else 0

/-- The argument passed to `math.log10` in the volume bonus:
`max(metrics.transaction_count, 1) + 1`. -/
noncomputable def volume_log_arg (transaction_count : ℤ) : ℝ :=
  ((max transaction_count 1 + 1 : ℤ) : ℝ)

/-- Transaction volume bonus:
`min(math.log10(max(transaction_count, 1) + 1) * 3, 10)`. -/
noncomputable def volume_bonus (transaction_count : ℤ) : ℝ :=
  min (Real.logb 10 (volume_log_arg transaction_count) * 3) 10

/-- Consistent frequency bonus, added only when
`0.1 <= frequency_per_day <= 5`: `max(0, min(10 - |freq - 1| * 2, 10))`. -/
noncomputable def frequency_bonus (frequency_per_day : ℝ) : ℝ :=
  if 0.1 ≤ frequency_per_day ∧ frequency_per_day ≤ 5 then
    max 0 (min (10 - |frequency_per_day - 1| * 2) 10)
  else 0

/-- Low variance bonus, added only when `variance_score` is present and
below 30: `(30 - variance_score) / 6`. -/
noncomputable def variance_bonus (variance_score : Option ℝ) : ℝ :=
  match variance_score with
  | none => 0
  | some v => if v < 30 then (30 - v) / 6 else 0

/-- Dispute penalty: `min(dispute_count * 5, 30)`. -/
noncomputable def dispute_penalty (dispute_count : ℤ) : ℝ :=
  min ((dispute_count : ℝ) * 5) 30

/-- Very new account penalty, subtracted only when `account_age_days < 30`:
`(30 - account_age_days) / 3`. -/
noncomputable def new_account_penalty (account_age_days : ℤ) : ℝ :=
  if account_age_days < 30 then (30 - (account_age_days : ℝ)) / 3 else 0

/-- Extremely high frequency penalty, subtracted only when
`frequency_per_day > 10`: `min((freq - 10) * 2, 20)`. -/
noncomputable def high_freq_penalty (frequency_per_day : ℝ) : ℝ :=
  if 10 < frequency_per_day then min ((frequency_per_day - 10) * 2) 20 else 0

/-- Wash trading penalty, subtracted only when
`avg_transaction_value < 10 and frequency_per_day > 5`: flat 15. -/
noncomputable def wash_trading_penalty (avg_transaction_value frequency_per_day : ℝ) : ℝ :=
  if avg_transaction_value < 10 ∧ 5 < frequency_per_day then 15 else 0

/-- The real-valued accumulator `score` of `calculate_score` just before the
final rounding and clamping: base 50 plus all bonuses minus all penalties
(the sequential `score += ...` / `score -= ...` updates of the source,
written as one sum). -/
noncomputable def raw_score (m : UserMetrics) : ℝ :=
  50 + age_bonus m.account_age_days
    + success_bonus m.transaction_count m.successful_transactions
    + volume_bonus m.transaction_count
    + frequency_bonus m.frequency_per_day
    + variance_bonus m.variance_score
    - dispute_penalty m.dispute_count
    - new_account_penalty m.account_age_days
    - high_freq_penalty m.frequency_per_day
    - wash_trading_penalty m.avg_transaction_value m.frequency_per_day

/-- `calculate_score`: `max(0, min(100, round(score)))`. -/
noncomputable def calculate_score (m : UserMetrics) : ℤ :=
  max 0 (min 100 (pyRound (raw_score m)))

/-- The dict returned by `get_score_details`: base score, the `factors` and
`penalties` dicts (modelled as ordered key/value lists, in insertion order),
and the final score. -/
structure ScoreDetails where
  base_score : ℤ
  factors : List (String × ℝ)
  penalties : List (String × ℝ)
  final_score : ℤ

/-- The real-valued accumulator `score` of `get_score_details` just before
its final rounding and clamping. Unlike `calculate_score`, this function
adds no variance bonus and subtracts no wash trading penalty, and it skips
the dispute penalty entirely when `dispute_count <= 0`. -/
noncomputable def details_score (m : UserMetrics) : ℝ :=
  50 + age_bonus m.account_age_days
    + success_bonus m.transaction_count m.successful_transactions
    + volume_bonus m.transaction_count
    + frequency_bonus m.frequency_per_day
    - (if 0 < m.dispute_count then dispute_penalty m.dispute_count else 0)
    - new_account_penalty m.account_age_days
    - high_freq_penalty m.frequency_per_day

/-- `get_score_details`: records (2-decimal rounded) the age, success-rate,
volume and frequency factors and the dispute, new-account and
high-frequency penalties, each under the dict key used by the source, and
the final clamped score. -/
noncomputable def get_score_details (m : UserMetrics) : ScoreDetails where
  base_score := 50
  factors :=
    [("account_age", round2 (age_bonus m.account_age_days))]
    ++ (if 0 < m.transaction_count then
          [("success_rate", round2 (success_bonus m.transaction_count m.successful_transactions))]
        else [])
    ++ [("transaction_volume", round2 (volume_bonus m.transaction_count))]
    ++ (if 0.1 ≤ m.frequency_per_day ∧ m.frequency_per_day ≤ 5 then
          [("frequency", round2 (frequency_bonus m.frequency_per_day))]
        else [])
  penalties :=
    (if 0 < m.dispute_count then
        [("disputes", round2 (dispute_penalty m.dispute_count))]
      else [])
    ++ (if m.account_age_days < 30 then
          [("new_account", round2 (new_account_penalty m.account_age_days))]
        else [])
    ++ (if 10 < m.frequency_per_day then
          [("high_frequency", round2 (high_freq_penalty m.frequency_per_day))]
        else [])
  final_score := max 0 (min 100 (pyRound (details_score m)))

end ScoreService

namespace Backend

/-- `get_tier_from_score` of `backend/main.py`. -/
def get_tier_from_score (score : ℤ) : String :=
  if 80 ≤ score then "FULL"
  else if 50 ≤ score then "LIMITED"
  else "BLOCKED"

/-- The `PushScoreResponse` pydantic model of `backend/main.py`. -/
structure PushScoreResponse where
  success : Bool
  wallet_address : String
  score : ℤ
  message : String
  transaction_hash : Option String

/-- A FastAPI `HTTPException`: status code and detail message. -/
structure HTTPError where
  status_code : ℤ
  detail : String

/-- The `/push-score` handler of `backend/main.py`. `connected` is the
`blockchain_state["connected"]` flag the handler reads; `oracle_result`
stands for the outcome the oracle listener's score submission would
produce — the handler never consults it, because the blockchain call in the
connected branch is an unimplemented TODO stub that returns success with
the placeholder hash `"0x..."`. -/
def push_score (connected : Bool) (oracle_result : Option String)
    (wallet_address : String) (score : ℤ) : Except HTTPError PushScoreResponse :=
  if ¬ (0 ≤ score ∧ score ≤ 100) then
    Except.error ⟨400, "Score must be between 0 and 100"⟩
  else if ¬ connected then
    Except.ok ⟨true, wallet_address, score,
      "Score recorded (blockchain not connected - stub mode)", none⟩
  else
    Except.ok ⟨true, wallet_address, score, "Score pushed to blockchain", some "0x..."⟩

end Backend

namespace OracleListener

/-- Outcomes of the external web3 calls made by
`OracleListener.push_score`, in the order the source performs them; each
either succeeds with the value the code uses or raises (is an `error`),
which the source's `except` clauses turn into `None`. The receipt outcome
carries the receipt's `status` field. -/
structure OracleEnv where
  to_checksum_address : Except String String
  build_transaction : Except String Unit
  sign_transaction : Except String Unit
  send_raw_transaction : Except String String
  wait_for_transaction_receipt : Except String ℤ

/-- `OracleListener.push_score` of `backend/oracle_listener.py`.
`has_oracle_contract` and `has_account` model the truthiness of
`self.oracle_contract` and `self.account`; the web3 side effects are
supplied by `env`. Returns the transaction hash on a status-1 receipt and
`none` in every other case (guard failures, invalid score, failed receipt,
or any raised exception). -/
def push_score (has_oracle_contract has_account : Bool) (env : OracleEnv)
    (score : ℤ) : Option String :=
  if !has_oracle_contract || !has_account then none
  else if ¬ (0 ≤ score ∧ score ≤ 100) then none
  else
    match env.to_checksum_address with
    | Except.error _ => none
    | Except.ok _ =>
      match env.build_transaction with
      | Except.error _ => none
      | Except.ok _ =>
        match env.sign_transaction with
        | Except.error _ => none
        | Except.ok _ =>
          match env.send_raw_transaction with
          | Except.error _ => none
          | Except.ok tx_hash =>
            match env.wait_for_transaction_receipt with
            | Except.error _ => none
            | Except.ok status => if status = 1 then some tx_hash else none

end OracleListener

section PyRoundLemmas

theorem pyRound_eq_round {x : ℝ} (h : Int.fract x ≠ 1 / 2) : pyRound x = round x :=
  if_neg h

theorem pyRound_tie {x : ℝ} (h : Int.fract x = 1 / 2) :
    pyRound x = if ⌊x⌋ % 2 = 0 then ⌊x⌋ else ⌊x⌋ + 1 :=
  if_pos h

theorem eq_floor_add_half {x : ℝ} (h : Int.fract x = 1 / 2) : x = ⌊x⌋ + 1 / 2 := by
  conv_lhs => rw [← Int.floor_add_fract x]
  rw [h]

theorem floor_le_pyRound (x : ℝ) : ⌊x⌋ ≤ pyRound x := by
  by_cases h : Int.fract x = 1 / 2
  · rw [pyRound_tie h]
    split <;> omega
  · rw [pyRound_eq_round h, round_eq]
    exact Int.floor_mono (by linarith)

theorem pyRound_le_floor_add_one (x : ℝ) : pyRound x ≤ ⌊x⌋ + 1 := by
  by_cases h : Int.fract x = 1 / 2
  · rw [pyRound_tie h]
    split <;> omega
  · rw [pyRound_eq_round h, round_eq]
    have h1 : ⌊x + 1 / 2⌋ ≤ ⌊x + 1⌋ := Int.floor_mono (by linarith)
    rw [Int.floor_add_one] at h1
    omega

theorem pyRound_mono {x y : ℝ} (hxy : x ≤ y) : pyRound x ≤ pyRound y := by
  by_cases hx : Int.fract x = 1 / 2 <;> by_cases hy : Int.fract y = 1 / 2
  · have hfl : ⌊x⌋ ≤ ⌊y⌋ := Int.floor_mono hxy
    rcases eq_or_lt_of_le hfl with heq | hlt
    · have hxy' : x = y := by rw [eq_floor_add_half hx, eq_floor_add_half hy, heq]
      rw [hxy']
    · calc pyRound x ≤ ⌊x⌋ + 1 := pyRound_le_floor_add_one x
        _ ≤ ⌊y⌋ := by omega
        _ ≤ pyRound y := floor_le_pyRound y
  · have hxy' : x < y := lt_of_le_of_ne hxy (fun h => hy (h ▸ hx))
    have hx' := eq_floor_add_half hx
    have h1 : ((⌊x⌋ + 1 : ℤ) : ℝ) ≤ y + 1 / 2 := by push_cast; linarith
    have h2 : ⌊x⌋ + 1 ≤ ⌊y + 1 / 2⌋ := Int.le_floor.mpr h1
    calc pyRound x ≤ ⌊x⌋ + 1 := pyRound_le_floor_add_one x
      _ ≤ ⌊y + 1 / 2⌋ := h2
      _ = round y := (round_eq y).symm
      _ = pyRound y := (pyRound_eq_round hy).symm
  · have hxy' : x < y := lt_of_le_of_ne hxy (fun h => hx (h ▸ hy))
    have hy' := eq_floor_add_half hy
    have h1 : x + 1 / 2 < ((⌊y⌋ + 1 : ℤ) : ℝ) := by push_cast; linarith
    have h2 : ⌊x + 1 / 2⌋ ≤ ⌊y⌋ := by
      have := Int.floor_lt.mpr h1
      omega
    calc pyRound x = round x := pyRound_eq_round hx
      _ = ⌊x + 1 / 2⌋ := round_eq x
      _ ≤ ⌊y⌋ := h2
      _ ≤ pyRound y := floor_le_pyRound y
  · rw [pyRound_eq_round hx, pyRound_eq_round hy, round_eq, round_eq]
    exact Int.floor_mono (by linarith)

theorem pyRound_intCast (n : ℤ) : pyRound ((n : ℝ)) = n := by
  have h : Int.fract ((n : ℝ)) = 0 := Int.fract_intCast n
  rw [pyRound_eq_round (by rw [h]; norm_num), round_intCast]

theorem abs_sub_pyRound (x : ℝ) : |x - (pyRound x : ℝ)| ≤ 1 / 2 := by
  by_cases h : Int.fract x = 1 / 2
  · have hx := eq_floor_add_half h
    rw [pyRound_tie h]
    split <;> (rw [abs_le]; constructor <;> (push_cast; linarith))
  · rw [pyRound_eq_round h]
    exact abs_sub_round x

theorem pyRound_int_add_half (k : ℤ) :
    pyRound ((k : ℝ) + 1 / 2) = if k % 2 = 0 then k else k + 1 := by
  have hfl : ⌊(k : ℝ) + 1 / 2⌋ = k := by
    rw [Int.floor_eq_iff]
    constructor <;> [linarith; (push_cast; linarith)]
  have hfr : Int.fract ((k : ℝ) + 1 / 2) = 1 / 2 := by
    rw [← Int.self_sub_floor, hfl]
    ring
  rw [pyRound_tie hfr, hfl]

theorem pyRound_tie_even (k : ℤ) : Even (pyRound ((k : ℝ) + 1 / 2)) := by
  rw [pyRound_int_add_half]
  split <;> (rename_i h; exact Int.even_iff.mpr (by omega))

theorem round2_intCast (n : ℤ) : round2 ((n : ℝ)) = (n : ℝ) := by
  unfold round2
  rw [show (n : ℝ) * 100 = ((n * 100 : ℤ) : ℝ) by push_cast; ring, pyRound_intCast]
  push_cast
  rw [mul_div_assoc]
  norm_num

end PyRoundLemmas

namespace ScoreService

theorem age_bonus_365 : age_bonus 365 = 10 := by
  unfold age_bonus
  rw [min_eq_left (by norm_num)]
  norm_num

theorem success_bonus_9_9 : success_bonus 9 9 = 20 := by
  norm_num [success_bonus]

theorem volume_bonus_9 : volume_bonus 9 = 3 := by
  unfold volume_bonus volume_log_arg
  rw [show (max (9 : ℤ) 1 + 1 : ℤ) = 10 by decide]
  rw [show ((10 : ℤ) : ℝ) = (10 : ℝ) by push_cast; ring]
  rw [Real.logb_self_eq_one (by norm_num)]
  rw [min_eq_left (by norm_num)]
  norm_num

theorem frequency_bonus_1 : frequency_bonus 1 = 10 := by
  unfold frequency_bonus
  rw [if_pos (by norm_num)]
  rw [show |(1 : ℝ) - 1| = 0 by simp]
  rw [min_eq_left (by norm_num), max_eq_right (by norm_num)]
  norm_num

theorem frequency_bonus_6 : frequency_bonus 6 = 0 := by
  unfold frequency_bonus
  rw [if_neg (by norm_num)]

theorem variance_bonus_12 : variance_bonus (some 12) = 3 := by
  norm_num [variance_bonus]

theorem variance_bonus_27 : variance_bonus (some 27) = 1 / 2 := by
  norm_num [variance_bonus]

theorem variance_bonus_none : variance_bonus none = 0 := rfl

theorem dispute_penalty_0 : dispute_penalty 0 = 0 := by
  unfold dispute_penalty
  rw [show ((0 : ℤ) : ℝ) * 5 = 0 by norm_num]
  rw [min_eq_left (by norm_num)]

theorem dispute_penalty_1 : dispute_penalty 1 = 5 := by
  unfold dispute_penalty
  rw [show ((1 : ℤ) : ℝ) * 5 = 5 by norm_num]
  rw [min_eq_left (by norm_num)]

theorem dispute_penalty_2 : dispute_penalty 2 = 10 := by
  unfold dispute_penalty
  rw [show ((2 : ℤ) : ℝ) * 5 = 10 by norm_num]
  rw [min_eq_left (by norm_num)]

theorem new_account_penalty_365 : new_account_penalty 365 = 0 := by
  unfold new_account_penalty
  rw [if_neg (by norm_num)]

theorem high_freq_penalty_1 : high_freq_penalty 1 = 0 := by
  unfold high_freq_penalty
  rw [if_neg (by norm_num)]

theorem high_freq_penalty_6 : high_freq_penalty 6 = 0 := by
  unfold high_freq_penalty
  rw [if_neg (by norm_num)]

theorem wash_trading_penalty_500_1 : wash_trading_penalty 500 1 = 0 := by
  unfold wash_trading_penalty
  rw [if_neg (by norm_num)]

theorem wash_trading_penalty_5_6 : wash_trading_penalty 5 6 = 15 := by
  unfold wash_trading_penalty
  rw [if_pos (by norm_num)]

end ScoreService

theorem floor_int_add_half (k : ℤ) : ⌊(k : ℝ) + 1 / 2⌋ = k := by
  rw [Int.floor_eq_iff]
  constructor <;> [linarith; (push_cast; linarith)]

theorem fract_int_add_half (k : ℤ) : Int.fract ((k : ℝ) + 1 / 2) = 1 / 2 := by
  rw [← Int.self_sub_floor, floor_int_add_half]
  ring

theorem round2_10 : round2 10 = 10 := by
  have h := round2_intCast 10
  norm_cast at h

theorem round2_20 : round2 20 = 20 := by
  have h := round2_intCast 20
  norm_cast at h

theorem round2_3 : round2 3 = 3 := by
  have h := round2_intCast 3
  norm_cast at h

namespace ScoreService

theorem raw_score_c1 : raw_score ⟨9, 500, 365, 0, 9, 1, some 12⟩ = 96 := by
  simp only [raw_score, age_bonus_365, success_bonus_9_9, volume_bonus_9, frequency_bonus_1,
    variance_bonus_12, dispute_penalty_0, new_account_penalty_365, high_freq_penalty_1,
    wash_trading_penalty_500_1]
  norm_num

theorem details_score_c1 : details_score ⟨9, 500, 365, 0, 9, 1, some 12⟩ = 93 := by
  simp only [details_score, age_bonus_365, success_bonus_9_9, volume_bonus_9, frequency_bonus_1,
    new_account_penalty_365, high_freq_penalty_1]
  norm_num

theorem raw_score_c3 : raw_score ⟨9, 500, 365, 1, 9, 1, some 27⟩ = ((88 : ℤ) : ℝ) + 1 / 2 := by
  simp only [raw_score, age_bonus_365, success_bonus_9_9, volume_bonus_9, frequency_bonus_1,
    variance_bonus_27, dispute_penalty_1, new_account_penalty_365, high_freq_penalty_1,
    wash_trading_penalty_500_1]
  push_cast
  norm_num

end ScoreService

/-- C1: refuted. The claim states that for every §3-valid MetricsRecord the
score computed by `calculate_score` equals the `final_score` of the
breakdown returned by `get_score_details`. At the valid metrics
(transaction_count 9, avg value 500, age 365 days, 0 disputes, 9 successes,
frequency 1, variance 12) `calculate_score` applies the low-variance bonus
and returns 96, while `get_score_details` omits that bonus and records
final_score 93. -/
theorem c1_score_vs_details_divergence :
    ScoreService.calculate_score ⟨9, 500, 365, 0, 9, 1, some 12⟩ = 96 ∧
    (ScoreService.get_score_details ⟨9, 500, 365, 0, 9, 1, some 12⟩).final_score = 93 := by
  constructor
  · unfold ScoreService.calculate_score
    rw [ScoreService.raw_score_c1, show (96 : ℝ) = ((96 : ℤ) : ℝ) by norm_num, pyRound_intCast]
    decide
  · simp only [ScoreService.get_score_details]
    rw [ScoreService.details_score_c1, show (93 : ℝ) = ((93 : ℤ) : ℝ) by norm_num, pyRound_intCast]
    decide

/-- C2: refuted. The claim states the breakdown records every applied factor
and penalty, in particular a low-variance bonus of (30 − variance_score)/6
and a wash-trading penalty of 15 when they apply. At the metrics
(9, avg 5, age 365, 2 disputes, 9 successes, frequency 6, variance 10) both
apply in `calculate_score` (bonus 10/3, penalty 15), yet the breakdown's
factor list is exactly account_age 10, success_rate 20, transaction_volume 3
and its penalty list is exactly disputes 10: no variance or wash-trading
entry exists under any key. -/
theorem c2_breakdown_missing_entries :
    (ScoreService.get_score_details ⟨9, 5, 365, 2, 9, 6, some 10⟩).factors =
      [("account_age", 10), ("success_rate", 20), ("transaction_volume", 3)] ∧
    (ScoreService.get_score_details ⟨9, 5, 365, 2, 9, 6, some 10⟩).penalties =
      [("disputes", 10)] ∧
    ScoreService.variance_bonus (some (10 : ℝ)) = 10 / 3 ∧
    ScoreService.wash_trading_penalty 5 6 = 15 := by
  refine ⟨?_, ?_, ?_, ScoreService.wash_trading_penalty_5_6⟩
  · simp only [ScoreService.get_score_details, ScoreService.age_bonus_365,
      ScoreService.success_bonus_9_9, ScoreService.volume_bonus_9]
    norm_num [round2_10, round2_20, round2_3]
  · simp only [ScoreService.get_score_details, ScoreService.dispute_penalty_2]
    norm_num [round2_10]
  · norm_num [ScoreService.variance_bonus]

/-- C3 counterexample: at the §3-valid metrics (9, 500, 365, 1 dispute, 9
successes, frequency 1, variance 27) the pre-rounding sum is exactly 88.5,
rounding away from zero (then clamping) would give 89, but the code
(Python's banker's rounding) returns 88. -/
theorem c3_tie_counterexample :
    Int.fract (ScoreService.raw_score ⟨9, 500, 365, 1, 9, 1, some 27⟩) = 1 / 2 ∧
    ScoreService.calculate_score ⟨9, 500, 365, 1, 9, 1, some 27⟩ = 88 ∧
    max 0 (min 100 (round (ScoreService.raw_score ⟨9, 500, 365, 1, 9, 1, some 27⟩))) = 89 := by
  refine ⟨?_, ?_, ?_⟩
  · rw [ScoreService.raw_score_c3, fract_int_add_half]
  · unfold ScoreService.calculate_score
    rw [ScoreService.raw_score_c3, pyRound_int_add_half]
    decide
  · rw [ScoreService.raw_score_c3, round_eq,
      show ((88 : ℤ) : ℝ) + 1 / 2 + 1 / 2 = ((89 : ℤ) : ℝ) by push_cast; ring,
      Int.floor_intCast]
    decide

/-- C3 amended: the Score Engine's final score is obtained by rounding the
real-valued sum 50 + Σ bonuses − Σ penalties to a nearest integer (within
1/2) and clamping to [0,100], but ties (fractional part exactly 0.5) round
to the nearest even integer (Python's `round`), not away from zero. -/
theorem c3_round_half_to_even :
    (∀ m : ScoreService.UserMetrics,
        ScoreService.calculate_score m = max 0 (min 100 (pyRound (ScoreService.raw_score m)))) ∧
    (∀ x : ℝ, |x - (pyRound x : ℝ)| ≤ 1 / 2) ∧
    (∀ k : ℤ, Even (pyRound ((k : ℝ) + 1 / 2))) :=
  ⟨fun _ => rfl, abs_sub_pyRound, pyRound_tie_even⟩

/-- C5: confirmed. For every MetricsRecord (in particular every §3-valid
one) the Score Engine is a total function and its final score lies in
[0,100]. -/
theorem c5_score_in_range (m : ScoreService.UserMetrics) :
    0 ≤ ScoreService.calculate_score m ∧ ScoreService.calculate_score m ≤ 100 := by
  unfold ScoreService.calculate_score
  exact ⟨le_max_left 0 _, max_le (by norm_num) (min_le_left 100 _)⟩

/-- C7: confirmed. The Tier Classifier is a total pure function of the
integer score: FULL for score ≥ 80, LIMITED for 50 ≤ score < 80, BLOCKED
for score < 50, and the boundary values 80 and 50 belong to the higher
tier. -/
theorem c7_tier_boundaries :
    (∀ s : ℤ, 80 ≤ s → Backend.get_tier_from_score s = "FULL") ∧
    (∀ s : ℤ, 50 ≤ s → s < 80 → Backend.get_tier_from_score s = "LIMITED") ∧
    (∀ s : ℤ, s < 50 → Backend.get_tier_from_score s = "BLOCKED") ∧
    Backend.get_tier_from_score 80 = "FULL" ∧
    Backend.get_tier_from_score 79 = "LIMITED" ∧
    Backend.get_tier_from_score 50 = "LIMITED" ∧
    Backend.get_tier_from_score 49 = "BLOCKED" := by
  refine ⟨?_, ?_, ?_, rfl, rfl, rfl, rfl⟩
  · intro s h
    unfold Backend.get_tier_from_score
    rw [if_pos h]
  · intro s h1 h2
    unfold Backend.get_tier_from_score
    rw [if_neg (by omega), if_pos h1]
  · intro s h
    unfold Backend.get_tier_from_score
    rw [if_neg (by omega), if_neg (by omega)]

theorem c7_tier_boundaries_witness :
    Backend.get_tier_from_score 95 = "FULL" ∧
    Backend.get_tier_from_score 60 = "LIMITED" ∧
    Backend.get_tier_from_score 7 = "BLOCKED" :=
  ⟨c7_tier_boundaries.1 95 (by decide), c7_tier_boundaries.2.1 60 (by decide) (by decide),
    c7_tier_boundaries.2.2.1 7 (by decide)⟩

/-- C8: confirmed. Holding every other field fixed, a larger (or equal)
`account_age_days` never yields a smaller final score: the age bonus is
monotone (saturating at 15) and the new-account penalty shrinks with age,
while no other term reads the age. -/
theorem c8_age_monotone (m : ScoreService.UserMetrics) (a₁ a₂ : ℤ) (h : a₁ ≤ a₂) :
    ScoreService.calculate_score { m with account_age_days := a₁ } ≤
      ScoreService.calculate_score { m with account_age_days := a₂ } := by
  have hc : (a₁ : ℝ) ≤ (a₂ : ℝ) := by exact_mod_cast h
  have hage : ScoreService.age_bonus a₁ ≤ ScoreService.age_bonus a₂ := by
    unfold ScoreService.age_bonus
    exact min_le_min (by linarith) le_rfl
  have hnap : ScoreService.new_account_penalty a₂ ≤ ScoreService.new_account_penalty a₁ := by
    unfold ScoreService.new_account_penalty
    split_ifs with h1 h2 h3
    · linarith
    · omega
    · have h3' : (a₁ : ℝ) < 30 := by exact_mod_cast h3
      linarith
    · linarith
  have hraw : ScoreService.raw_score { m with account_age_days := a₁ } ≤
      ScoreService.raw_score { m with account_age_days := a₂ } := by
    unfold ScoreService.raw_score
    dsimp only
    linarith
  unfold ScoreService.calculate_score
  exact max_le_max le_rfl (min_le_min le_rfl (pyRound_mono hraw))

theorem c8_age_monotone_witness :
    ScoreService.calculate_score
        { (⟨9, 500, 0, 0, 9, 1, none⟩ : ScoreService.UserMetrics) with account_age_days := 5 } ≤
      ScoreService.calculate_score
        { (⟨9, 500, 0, 0, 9, 1, none⟩ : ScoreService.UserMetrics) with account_age_days := 400 } :=
  c8_age_monotone ⟨9, 500, 0, 0, 9, 1, none⟩ 5 400 (by decide)

/-- C9: confirmed. For a MetricsRecord with `transaction_count = 0` the
volume bonus passes the positive argument `max(0, 1) + 1 = 2` to `log10`
(no domain error), and the breakdown of `get_score_details` contains no
`success_rate` factor. -/
theorem c9_zero_transactions (m : ScoreService.UserMetrics)
    (h : m.transaction_count = 0) :
    0 < ScoreService.volume_log_arg m.transaction_count ∧
    "success_rate" ∉ (ScoreService.get_score_details m).factors.map Prod.fst := by
  constructor
  · rw [h]
    unfold ScoreService.volume_log_arg
    rw [show (max (0 : ℤ) 1 + 1 : ℤ) = 2 by decide]
    norm_num
  · simp only [ScoreService.get_score_details, h]
    norm_num
    exact ⟨by decide, by decide, fun _ _ => by decide⟩

theorem c9_zero_transactions_witness :
    0 < ScoreService.volume_log_arg
        ((⟨0, 100, 365, 0, 0, 1, none⟩ : ScoreService.UserMetrics)).transaction_count ∧
    "success_rate" ∉
      (ScoreService.get_score_details
        (⟨0, 100, 365, 0, 0, 1, none⟩ : ScoreService.UserMetrics)).factors.map Prod.fst :=
  c9_zero_transactions ⟨0, 100, 365, 0, 0, 1, none⟩ rfl

/-- C4 counterexample: with the connection flag true and the ledger-side
submission failing (oracle outcome `none`), the `/push-score` handler still
returns success=true with the placeholder transaction hash "0x..." instead
of success=false with no transaction reference. -/
theorem c4_stub_counterexample :
    Backend.push_score true none "0x742d35Cc6634C0532925a3b844Bc9e7595f0Ab01" 85 =
      Except.ok ⟨true, "0x742d35Cc6634C0532925a3b844Bc9e7595f0Ab01", 85,
        "Score pushed to blockchain", some "0x..."⟩ := by
  rfl

/-- C4 amended: whenever the connection flag is true and the score is in
[0,100], the handler never raises and always resolves, but it does not
delegate to the ledger collaborator (the blockchain call is an
unimplemented TODO): for every ledger outcome it returns success=true with
the placeholder transaction reference "0x...". -/
theorem c4_connected_ignores_ledger (oracle_result : Option String) (wallet : String)
    (score : ℤ) (h0 : 0 ≤ score) (h1 : score ≤ 100) :
    Backend.push_score true oracle_result wallet score =
      Except.ok ⟨true, wallet, score, "Score pushed to blockchain", some "0x..."⟩ := by
  unfold Backend.push_score
  rw [if_neg (not_not.mpr ⟨h0, h1⟩), if_neg (by simp)]

theorem c4_connected_ignores_ledger_witness :
    Backend.push_score true (some "0xfeedbeef") "0xabc" 85 =
      Except.ok ⟨true, "0xabc", 85, "Score pushed to blockchain", some "0x..."⟩ :=
  c4_connected_ignores_ledger (some "0xfeedbeef") "0xabc" 85 (by decide) (by decide)

/-- C6: confirmed. When the connection flag is false, for every identity,
every ledger outcome and every score in [0,100], the handler returns
success=true with no transaction reference (degraded stub mode, not an
error). -/
theorem c6_stub_mode (oracle_result : Option String) (wallet : String) (score : ℤ)
    (h0 : 0 ≤ score) (h1 : score ≤ 100) :
    Backend.push_score false oracle_result wallet score =
      Except.ok ⟨true, wallet, score,
        "Score recorded (blockchain not connected - stub mode)", none⟩ := by
  unfold Backend.push_score
  rw [if_neg (not_not.mpr ⟨h0, h1⟩), if_pos (by simp)]

theorem c6_stub_mode_witness :
    Backend.push_score false none "0xdef" 42 =
      Except.ok ⟨true, "0xdef", 42,
        "Score recorded (blockchain not connected - stub mode)", none⟩ :=
  c6_stub_mode none "0xdef" 42 (by decide) (by decide)

/-- C10: confirmed. `OracleListener.push_score` is total into `Option String`
(every raised web3 exception is caught and becomes `None`): it returns
`none` when the contract or account is unconfigured, when the score is
outside [0,100], when any web3 call raises, or when the receipt status is
not 1; and it returns a hash only when the contract and account are
configured, the score is in range, the send produced that hash, and the
receipt reported status 1. -/
theorem c10_oracle_push_characterization :
    (∀ (c a : Bool) (env : OracleListener.OracleEnv) (s : ℤ),
        c = false ∨ a = false → OracleListener.push_score c a env s = none) ∧
    (∀ (c a : Bool) (env : OracleListener.OracleEnv) (s : ℤ),
        s < 0 ∨ 100 < s → OracleListener.push_score c a env s = none) ∧
    (∀ (c a : Bool) (env : OracleListener.OracleEnv) (s : ℤ) (st : ℤ),
        env.wait_for_transaction_receipt = Except.ok st → st ≠ 1 →
        OracleListener.push_score c a env s = none) ∧
    (∀ (c a : Bool) (env : OracleListener.OracleEnv) (s : ℤ) (e : String),
        env.to_checksum_address = Except.error e ∨
        env.build_transaction = Except.error e ∨
        env.sign_transaction = Except.error e ∨
        env.send_raw_transaction = Except.error e ∨
        env.wait_for_transaction_receipt = Except.error e →
        OracleListener.push_score c a env s = none) ∧
    (∀ (c a : Bool) (env : OracleListener.OracleEnv) (s : ℤ) (h : String),
        OracleListener.push_score c a env s = some h →
        c = true ∧ a = true ∧ (0 ≤ s ∧ s ≤ 100) ∧
        env.send_raw_transaction = Except.ok h ∧
        env.wait_for_transaction_receipt = Except.ok 1) := by
  refine ⟨?_, ?_, ?_, ?_, ?_⟩
  · intro c a env s hca
    unfold OracleListener.push_score
    rcases hca with rfl | rfl
    · simp
    · simp
  · intro c a env s hs
    have hns : ¬ (0 ≤ s ∧ s ≤ 100) := by
      rintro ⟨hl, hu⟩
      rcases hs with hlt | hgt <;> omega
    unfold OracleListener.push_score
    by_cases hg : (!c || !a) = true
    · rw [if_pos hg]
    · rw [if_neg hg, if_pos hns]
  · intro c a env s st hrec hst
    obtain ⟨ec, eb, esg, esd, er⟩ := env
    simp at hrec
    subst hrec
    unfold OracleListener.push_score
    by_cases hg : (!c || !a) = true
    · rw [if_pos hg]
    · rw [if_neg hg]
      by_cases hr : ¬ (0 ≤ s ∧ s ≤ 100)
      · rw [if_pos hr]
      · rw [if_neg hr]
        dsimp only
        cases ec with
        | error e => rfl
        | ok u =>
          cases eb with
          | error e => rfl
          | ok u2 =>
            cases esg with
            | error e => rfl
            | ok u3 =>
              cases esd with
              | error e => rfl
              | ok txh =>
                show (if st = 1 then some txh else none) = none
                exact if_neg hst
  · intro c a env s e herr
    obtain ⟨ec, eb, esg, esd, er⟩ := env
    simp at herr
    unfold OracleListener.push_score
    by_cases hg : (!c || !a) = true
    · rw [if_pos hg]
    · rw [if_neg hg]
      by_cases hr : ¬ (0 ≤ s ∧ s ≤ 100)
      · rw [if_pos hr]
      · rw [if_neg hr]
        dsimp only
        rcases herr with he | he | he | he | he <;>
          (cases ec <;> cases eb <;> cases esg <;> cases esd <;> cases er <;> simp_all)
  · intro c a env s h hsome
    obtain ⟨ec, eb, esg, esd, er⟩ := env
    unfold OracleListener.push_score at hsome
    by_cases hg : (!c || !a) = true
    · rw [if_pos hg] at hsome
      exact absurd hsome (by simp)
    · rw [if_neg hg] at hsome
      by_cases hr : ¬ (0 ≤ s ∧ s ≤ 100)
      · rw [if_pos hr] at hsome
        exact absurd hsome (by simp)
      · rw [if_neg hr] at hsome
        rw [not_not] at hr
        have hca : c = true ∧ a = true := by
          constructor <;> (cases c <;> cases a <;> simp_all)
        refine ⟨hca.1, hca.2, hr, ?_⟩
        dsimp only at hsome
        cases ec with
        | error e => exact absurd hsome (by simp)
        | ok u =>
          cases eb with
          | error e => exact absurd hsome (by simp)
          | ok u2 =>
            cases esg with
            | error e => exact absurd hsome (by simp)
            | ok u3 =>
              cases esd with
              | error e => exact absurd hsome (by simp)
              | ok txh =>
                cases er with
                | error e => exact absurd hsome (by simp)
                | ok st =>
                  have hsome2 : (if st = 1 then some txh else none) = some h := hsome
                  by_cases hst : st = 1
                  · rw [if_pos hst] at hsome2
                    have htx : txh = h := by injection hsome2
                    subst htx
                    subst hst
                    exact ⟨rfl, rfl⟩
                  · rw [if_neg hst] at hsome2
                    exact absurd hsome2 (by simp)

theorem c10_oracle_push_characterization_witness :
    true = true ∧ true = true ∧ ((0 : ℤ) ≤ 85 ∧ (85 : ℤ) ≤ 100) ∧
    (⟨Except.ok "0xCk", Except.ok (), Except.ok (), Except.ok "0xhash", Except.ok 1⟩ :
        OracleListener.OracleEnv).send_raw_transaction = Except.ok "0xhash" ∧
    (⟨Except.ok "0xCk", Except.ok (), Except.ok (), Except.ok "0xhash", Except.ok 1⟩ :
        OracleListener.OracleEnv).wait_for_transaction_receipt = Except.ok 1 :=
  c10_oracle_push_characterization.2.2.2.2 true true
    ⟨Except.ok "0xCk", Except.ok (), Except.ok (), Except.ok "0xhash", Except.ok 1⟩ 85 "0xhash" rfl
